import Mathlib

/-!
Verification development for the MOCI command-script TM/TC client
(`src/tmtc/tmtc_py4j.py`).  The Python module is shallowly embedded:  each
pure fragment becomes a Lean function over explicit data, dictionaries become
insertion-ordered association lists (Python 3.7+ dict semantics), Python
exceptions become explicit error constructors, and side effects of the
command/transfer engine (collaborator calls, temp-file lifecycle, transfer
aborts) become explicit traces computed from an environment outcome.
-/

namespace TMTC

/-! ## Name lookup tree (tmtc_py4j.py lines 375-407, 1237-1307)

Python dotted names are embedded as their character lists; the lookup tree
(a Python dict whose values are either sub-dicts or integer identifiers)
becomes `LVal` over insertion-ordered association lists.  -/

abbrev Key := List Char

/-- A value stored in the lookup dictionary: either a terminal onboard
identifier or a nested dictionary (insertion-ordered association list). -/
inductive LVal where
  | leafId : Nat → LVal
  | tree : List (Key × LVal) → LVal
deriving Repr

/-- Python `d[k]` / `d.get(k)` on an insertion-ordered dict. -/
def aget (d : List (Key × LVal)) (k : Key) : Option LVal :=
  match d with
  | [] => none
  | (k', v) :: rest => if k' = k then some v else aget rest k

/-- Python `d[k] = v`: update in place if the key exists, else append,
preserving insertion order. -/
def aset (d : List (Key × LVal)) (k : Key) (v : LVal) : List (Key × LVal) :=
  match d with
  | [] => [(k, v)]
  | (k', v') :: rest => if k' = k then (k, v) :: rest else (k', v') :: aset rest k v

/-- Python `name.split(".")` on an embedded string.  `"a.b.c"` becomes the
segments `a`, `b`, `c`; the empty string becomes one empty segment. -/
def splitOnDot (s : Key) : List Key :=
  match s with
  | [] => [[]]
  | c :: rest =>
    let r := splitOnDot rest
    if c = '.' then [] :: r
    else
      match r with
      | [] => [[c]]
      | seg :: segs => (c :: seg) :: segs

/-- `_lookup_tree_put` (lines 396-406).  The Python code splits the dotted
key string one segment at a time; here the segments arrive pre-split (the
join/split round trip in `_init_name_lookup_tree` is the identity because
segments are dot-free).  Returns `none` where Python would raise a
`TypeError` by indexing into an integer leaf (never reached for the
databases considered here). -/
def lookupTreePut (tree : List (Key × LVal)) (keys : List Key) (value : Nat) :
    Option (List (Key × LVal)) :=
  match keys with
  | [] => none
  | [k] => some (aset tree k (.leafId value))
  | k :: rest =>
    match aget tree k with
    | some (.tree sub) =>
      (lookupTreePut sub rest value).map (fun sub' => aset tree k (.tree sub'))
    | some (.leafId _) => none
    | none =>
      (lookupTreePut [] rest value).map (fun sub' => aset tree k (.tree sub'))

/-- The `functools.reduce(dict.get, keys.split(".")[::-1], tree)` step of
`_lookup_tree_get` (lines 389-393).  A `dict.get` miss yields Python `None`
and the next step's `TypeError` is swallowed, so any miss gives `none`;
reaching an integer leaf with segments left over likewise raises a caught
`TypeError`. -/
def reduceGet (v : LVal) (keys : List Key) : Option LVal :=
  match v, keys with
  | v, [] => some v
  | .tree t, k :: rest =>
    match aget t k with
    | some v' => reduceGet v' rest
    | none => none
  | .leafId _, _ :: _ => none

/-- `_lookup_tree_get` (lines 389-393): split the queried name on dots,
reverse the segments (most specific first) and walk the tree. -/
def lookupTreeGet (tree : List (Key × LVal)) (name : Key) : Option LVal :=
  reduceGet (.tree tree) (splitOnDot name).reverse

/-- `_lookup_tree_get_id` (lines 375-386): recurse into the first key of
each nested dictionary until a non-dictionary (the identifier) is reached.
An empty dictionary would raise an uncaught `IndexError` in Python;
that case is `none` here (never reached for trees built by
`initNameLookupTree`). -/
def lookupTreeGetId (v : LVal) : Option Nat :=
  match v with
  | .leafId n => some n
  | .tree [] => none
  | .tree ((_, v') :: _) => lookupTreeGetId v'

/-- Outcome of name resolution in `ModelInspector`. -/
inductive ResolveResult where
  | ok : Nat → ResolveResult
  | ambiguous : ResolveResult
  | notFound : ResolveResult
  | indexError : ResolveResult
deriving Repr, DecidableEq

/-- `ModelInspector._partial_name_to_id` (lines 1287-1307).  `len(name_tree)`
on an integer leaf raises a `TypeError`, caught as an immediate match;
otherwise the number of immediate children of the node reached decides
between ambiguous, not found, and descending with `_lookup_tree_get_id`. -/
def partialNameToId (tree : List (Key × LVal)) (name : Key) : ResolveResult :=
  match lookupTreeGet tree name with
  | none => .notFound
  | some (.leafId n) => .ok n
  | some (.tree t) =>
    if t.length > 1 then .ambiguous
    else if t.length = 0 then .notFound
    else
      match lookupTreeGetId (.tree t) with
      | some n => .ok n
      | none => .indexError

/-- One entry of the deployment database view consumed by
`_init_name_lookup_tree`: the element's short name (`getName()`), its fully
qualified dotted name (`getFullName()`) and its onboard identifier. -/
structure DbItem where
  shortName : Key
  fullName : Key
  elemId : Nat

/-- Stable insertion (descending by segment count) matching Python's stable
`list.sort(key=..., reverse=True)`. -/
def insDesc (x : List Key × Nat) : List (List Key × Nat) → List (List Key × Nat)
  | [] => [x]
  | y :: ys => if y.1.length > x.1.length then y :: insDesc x ys else x :: y :: ys

/-- Stable sort, descending by number of name segments (Python
`name_and_ids.sort(key=lambda x: len(x[0].split(".")), reverse=True)`). -/
def sortByDepthDesc : List (List Key × Nat) → List (List Key × Nat)
  | [] => []
  | x :: xs => insDesc x (sortByDepthDesc xs)

/-- `ModelInspector._init_name_lookup_tree` (lines 1237-1264): drop entries
whose short name contains a literal dot, key each remaining entry by its
reversed fully-qualified segments, sort deepest-first (stable), and insert
into the lookup tree. -/
def initNameLookupTree (items : List DbItem) : Option (List (Key × LVal)) :=
  let nameAndIds := (items.filter (fun it => ¬ it.shortName.contains '.')).map
    (fun it => ((splitOnDot it.fullName).reverse, it.elemId))
  (sortByDepthDesc nameAndIds).foldlM
    (fun t ni => lookupTreePut t ni.1 ni.2) []

/-- `ModelInspector._name_to_id` (lines 1266-1285): an exact full-name match
against the model (`getByName`) wins; otherwise fall back to the partial
lookup tree.  The tree is rebuilt from the same database view here (the
Python object builds it once at load time from identical inputs). -/
def nameToId (items : List DbItem) (name : Key) : ResolveResult :=
  match items.find? (fun it => it.fullName = name) with
  | some it => .ok it.elemId
  | none =>
    match initNameLookupTree items with
    | some tree => partialNameToId tree name
    | none => .indexError

/-! ## Parameter type descriptions (tmtc_py4j.py lines 217-296) -/

/-- `TypeStr` enumeration (line 217-226). -/
inductive TypeStr where
  | unsigned | signed | float | parameterref | bitfield | raw | varaw
deriving Repr, DecidableEq

/-- `TypeClass` enumeration (line 228-230). -/
inductive TypeClass where
  | value | fixed_raw | var_raw | fixed_vector | var_vector
deriving Repr, DecidableEq

/-- `ParameterDefinition` named tuple (lines 273-290). -/
structure ParameterDefinition where
  signature : Key
  type_str : TypeStr
  type_class : TypeClass
  min_rows : Nat
  max_rows : Nat
  bits_per_row : Nat
  bytes_per_row : Nat
  storage_bytes_per_row : Nat
  unused_bits_per_row : Nat
  is_raw : Bool
  is_fixed_size : Bool
  is_read_only : Bool
  is_config : Bool

/-! ## Python values and byte packing -/

/-- The Python values the codec can receive: integers, bytes-like objects
(byte values), strings, and sequences.  Python floats are not embedded; the
`float` branch of the codec is marked unmodelled and no claim depends on it. -/
inductive PyVal where
  | int : Int → PyVal
  | bytes : List Nat → PyVal
  | str : Key → PyVal
  | list : List PyVal → PyVal
deriving Repr

/-- `type(value).__name__` for the embedded values. -/
def pyKind : PyVal → Key
  | .int _ => "int".data
  | .bytes _ => "bytes".data
  | .str _ => "str".data
  | .list _ => "list".data

/-- Python truthiness of an embedded value (`if argument:`): zero, empty
bytes, empty string and empty list are falsy. -/
def pyTruthyVal : PyVal → Bool
  | .int n => n != 0
  | .bytes bs => !bs.isEmpty
  | .str s => !s.isEmpty
  | .list xs => !xs.isEmpty

/-- `isinstance(value, Iterable)` for the embedded values: everything but
an integer is iterable in Python (bytes, str, list). -/
def pyIsIterable : PyVal → Bool
  | .int _ => false
  | .bytes _ => true
  | .str _ => true
  | .list _ => true

/-- Iterating a Python value row by row (`for row in value`): a list yields
its elements, bytes yield integers, a string yields one-character strings.
Only called behind an `pyIsIterable` guard. -/
def pyIterRows : PyVal → List PyVal
  | .list xs => xs
  | .bytes bs => bs.map (fun b => PyVal.int (Int.ofNat b))
  | .str s => s.map (fun c => PyVal.str [c])
  | .int _ => []

/-- Python `len(value)` for the sized values (an integer has no `len`). -/
def pyLen : PyVal → Nat
  | .list xs => xs.length
  | .bytes bs => bs.length
  | .str s => s.length
  | .int _ => 0

/-- Big-endian base-256 digits of `n`, `len` bytes. -/
def beBytes (n : Nat) : Nat → List Nat
  | 0 => []
  | len + 1 => n / 256 ^ len % 256 :: beBytes n len

/-- Python `int.to_bytes(len, "big", signed=...)`: `none` is an
`OverflowError`. -/
def toBytesBE (v : Int) (len : Nat) (signed : Bool) : Option (List Nat) :=
  if signed then
    if len = 0 then (if v = 0 then some [] else none)
    else if -((2 : Int) ^ (8 * len - 1)) ≤ v ∧ v < (2 : Int) ^ (8 * len - 1) then
      some (beBytes (v % (2 : Int) ^ (8 * len)).toNat len)
    else none
  else
    if 0 ≤ v ∧ v < (2 : Int) ^ (8 * len) then some (beBytes v.toNat len) else none

/-- The big-endian unsigned integer value of a byte row
(`ByteArray.getUnsignedValue()` on the Java side). -/
def beNat (bs : List Nat) : Nat := bs.foldl (fun acc b => acc * 256 + b) 0

/-- The two's-complement signed value of a byte row
(`ByteArray.getSignedValue()` on the Java side). -/
def signedOfBytes (bs : List Nat) : Int :=
  let u := beNat bs
  if bs.length = 0 then 0
  else if u < 2 ^ (8 * bs.length - 1) then (u : Int)
  else (u : Int) - (2 : Int) ^ (8 * bs.length)

/-! ## Encoding: `TMTCPy4j._to_gen1_type` (lines 2478-2557) -/

/-- The Python exception that escapes `_to_gen1_type`.  The blanket
`except (AttributeError, ValueError)` wraps those two inner exceptions into
`TypeError("Cannot convert {kind} to Gen1 {type} type", e)` — that wrapped
exception is `typeErrorConv`, carrying the offending value's kind, the
target type string, and the wrapped cause.  Exceptions of other classes
escape unwrapped. -/
inductive EncCause where
  | valueErrorRange
  | valueErrorLen
  | attributeError
deriving Repr, DecidableEq

inductive EncErr where
  | typeErrorConv : Key → TypeStr → EncCause → EncErr
  | typeErrorVaraw : Key → EncErr
  | typeErrorCmp : Key → EncErr
  | iterationErr : EncErr
  | overflowError : EncErr
  | modelQueryError : EncErr
  | floatUnmodelled : EncErr
deriving Repr

/-- Is the escaped exception the generic type-conversion `TypeError`
(the `Cannot convert {kind} to Gen1 {type} type` wrap)? -/
def EncErr.isConvError : EncErr → Bool
  | .typeErrorConv _ _ _ => true
  | _ => false

/-- `twos_complement_range(n)` helper inside `_to_gen1_type`
(lines 2481-2484). -/
def twosComplementRange (n : Nat) : Int × Int :=
  (-((2 : Int) ^ (n - 1)), (2 : Int) ^ (n - 1) - 1)

/-- The parameter-reference special case opening `_to_gen1_type`
(lines 2487-2490): a string value for a `parameterref` parameter is resolved
through the name resolver first; a failed or ambiguous resolution raises a
`TMTCModelQueryError` that escapes the codec (the `indexError` outcome would
be an escaping `IndexError`, conflated here with the model-query error). -/
def refResolve (db : List DbItem) (value : PyVal) (pt : ParameterDefinition) :
    Except EncErr PyVal :=
  match pt.type_str, value with
  | .parameterref, .str s =>
    match nameToId db s with
    | .ok i => .ok (.int (Int.ofNat i))
    | _ => .error .modelQueryError
  | _, _ => .ok value

/-- `TMTCPy4j._to_gen1_type` (lines 2478-2557), switching on the type
string.  Notes kept from the source:
* unsigned / bitfield / parameterref: `value.to_bytes(bytes_per_row, "big")`;
  a non-integer raises `AttributeError` (wrapped), an out-of-range integer
  raises `OverflowError` (escapes unwrapped);
* signed: explicit range check against `bits_per_row` raising `ValueError`
  (wrapped into the conversion `TypeError`); comparing a non-integer against
  the bounds raises a bare comparison `TypeError` (escapes);
* float: IEEE-754 packing, not modelled (no claim depends on it);
* raw / varaw, `var_raw` class: a non-bytes value fails `memoryview` with a
  directly raised `TypeError` (escapes); a bytes value is length-checked
  against `min_rows ≤ len ≤ bytes_per_row` (`ValueError`, wrapped);
* raw / varaw, other classes: an integer is padded with `to_bytes`
  (`OverflowError` escapes); otherwise the length is validated only when
  `validate_len` is set (`ValueError`, wrapped), else passed through. -/
def toGen1Type (db : List DbItem) (value0 : PyVal) (pt : ParameterDefinition)
    (validate_len : Bool) : Except EncErr PyVal :=
  match refResolve db value0 pt with
  | .error e => .error e
  | .ok value =>
    match pt.type_str with
    | .parameterref | .unsigned | .bitfield =>
      match value with
      | .int n =>
        match toBytesBE n pt.bytes_per_row false with
        | some bs => .ok (.bytes bs)
        | none => .error .overflowError
      | v => .error (.typeErrorConv (pyKind v) pt.type_str .attributeError)
    | .signed =>
      match value with
      | .int n =>
        let r := twosComplementRange pt.bits_per_row
        if r.1 ≤ n ∧ n ≤ r.2 then
          match toBytesBE n pt.bytes_per_row true with
          | some bs => .ok (.bytes bs)
          | none => .error .overflowError
        else .error (.typeErrorConv (pyKind value) pt.type_str .valueErrorRange)
      | v => .error (.typeErrorCmp (pyKind v))
    | .float => .error .floatUnmodelled
    | .raw | .varaw =>
      if pt.type_class = TypeClass.var_raw then
        match value with
        | .bytes bs =>
          if pt.min_rows ≤ bs.length ∧ bs.length ≤ pt.bytes_per_row then
            .ok (.bytes bs)
          else .error (.typeErrorConv (pyKind value) pt.type_str .valueErrorLen)
        | v => .error (.typeErrorVaraw (pyKind v))
      else
        match value with
        | .int n =>
          match toBytesBE n pt.bytes_per_row false with
          | some bs => .ok (.bytes bs)
          | none => .error .overflowError
        | v =>
          if pyLen v ≠ pt.bytes_per_row ∧ validate_len then
            .error (.typeErrorConv (pyKind v) pt.type_str .valueErrorLen)
          else .ok v

/-! ## Decoding: `TMTCPy4j._from_gen1_type` (lines 2445-2476) -/

/-- The decoded semantic value.  `floatV` carries the raw IEEE-754 bit
pattern (the numeric host float is not modelled). -/
inductive DecValue where
  | boolV : Bool → DecValue
  | natV : Nat → DecValue
  | intV : Int → DecValue
  | bytesV : List Nat → DecValue
  | strV : Key → DecValue
  | floatV : List Nat → DecValue
deriving Repr, DecidableEq

/-- `TMTCPy4j._from_gen1_type` (lines 2445-2476) over the returned byte row.
A `bitfield` with exactly one bit per row decodes to a boolean
(`getUnsignedValue() != 0`); any other unsigned/bitfield row decodes to the
unsigned integer.  A `parameterref` is looked up back to a full name,
falling back to the raw identifier when the lookup fails.  -/
def fromGen1Type (db : List DbItem) (bs : List Nat) (pd : ParameterDefinition) :
    DecValue :=
  match pd.type_str with
  | .unsigned | .bitfield =>
    if pd.type_str = TypeStr.bitfield ∧ pd.bits_per_row = 1 then
      .boolV (beNat bs != 0)
    else .natV (beNat bs)
  | .signed => .intV (signedOfBytes bs)
  | .float => .floatV bs
  | .parameterref =>
    match db.find? (fun it => it.elemId = beNat bs) with
    | some it => .strV it.fullName
    | none => .natV (beNat bs)
  | .raw | .varaw => .bytesV bs

/-! ## Telemetry fan-out: `_TMListener.notify` (lines 1410-1419)

Listeners are identified by numbers; the environment assigns each a
behaviour.  A callable handler may run to completion (possibly mutating the
registry by calling `register`/`unregister`), raise a `TypeError`, or raise
some other exception; a queue accepts `put_nowait` or is full. -/

/-- Behaviour of one registered listener when notified. -/
inductive Beh where
  /-- A callable that returns normally; `post` is the effect its body has on
  the listener registry (calls to `register`/`unregister`). -/
  | callOk : (List Nat → List Nat) → Beh
  /-- A callable whose body raises.  If the exception is a `TypeError` the
  dispatch code mistakes the callable for a queue and calls `put_nowait` on
  it, raising an `AttributeError`; any other exception escapes directly. -/
  | callRaise : Bool → Beh
  /-- A queue with free space: `put_nowait` succeeds. -/
  | queuePut : Beh
  /-- A bounded queue that is full: `put_nowait` raises `queue.Full`. -/
  | queueFullB : Beh

/-- Does delivery to this listener run to completion? -/
def Beh.completes : Beh → Bool
  | .callOk _ => true
  | .queuePut => true
  | .callRaise _ => false
  | .queueFullB => false

/-- The exception class escaping `notify`, when one does. -/
inductive NotifyExc where
  | attributeError
  | otherError
  | queueFull
deriving Repr, DecidableEq

/-- Result of one `notify` dispatch: which listeners were reached (invoked
or enqueued), the registry at exit, and the escaping exception if any. -/
structure NotifyTrace where
  delivered : List Nat
  registry : List Nat
  exc : Option NotifyExc

/-- The `for listener in self.listeners.copy(): ...` loop body of
`_TMListener.notify`: walk the snapshot, attempting `listener(*args)` and
falling back to `listener.put_nowait(args)` on a `TypeError`.  The loop
stops at the first escaping exception. -/
def notifyGo (beh : Nat → Beh) : List Nat → List Nat → List Nat → NotifyTrace
  | [], reg, acc => ⟨acc, reg, none⟩
  | l :: rest, reg, acc =>
    match beh l with
    | .callOk post => notifyGo beh rest (post reg) (acc ++ [l])
    | .callRaise true => ⟨acc ++ [l], reg, some .attributeError⟩
    | .callRaise false => ⟨acc ++ [l], reg, some .otherError⟩
    | .queuePut => notifyGo beh rest reg (acc ++ [l])
    | .queueFullB => ⟨acc, reg, some .queueFull⟩

/-- `_TMListener.notify` (lines 1410-1419): take a shallow-copy snapshot of
the registry and deliver to each member of the snapshot. -/
def notifyModel (reg : List Nat) (beh : Nat → Beh) : NotifyTrace :=
  notifyGo beh reg reg []

/-! ## Command/Transfer engine (`TMTCPy4j`, lines 1842-2344)

Each public operation is embedded as a pure function computing the sequence
of collaborator calls it issues together with its outcome, from an explicit
"environment event" standing for what the remote engine does. -/

/-- Calls made against the remote `SyncCommandHandler` collaborator. -/
inductive EngineCall where
  | queryParameter : Nat → Int → EngineCall
  | getParameterSingle : Nat → Int → Int → EngineCall
  | getParameterMulti : Nat → Int → Int → Bool → Int → EngineCall
  | setParameter : Nat → Int → List PyVal → Bool → Int → EngineCall
  | invokeActionArg : Nat → PyVal → Int → EngineCall
  | invokeAction : Nat → Int → EngineCall
  | uplinkParameter : Nat → Int → Int → Bool → Int → Int → EngineCall
  | downlinkParameter : Nat → Int → Int → Nat → Bool → Int → Int → EngineCall
deriving Repr

/-- Which model-resolution path an operation takes for its target: the plain
`parameter_instance` path or the
`parameter_instance_for_parameter_block` path. -/
inductive TargetPath where
  | plain : TargetPath
  | block : Int → TargetPath
deriving Repr, DecidableEq

/-- `TMTCPy4j.query` target selection (line 1864): `if index_in_block:` —
Python truthiness, so both `None` and `0` take the plain-parameter path. -/
def queryResolution (index_in_block : Option Int) : TargetPath :=
  match index_in_block with
  | some i => if i != 0 then .block i else .plain
  | none => .plain

/-- `TMTCPy4j.get` target selection (line 1912):
`if index_in_block is not None:`. -/
def getResolution (index_in_block : Option Int) : TargetPath :=
  match index_in_block with
  | some i => .block i
  | none => .plain

/-- `TMTCPy4j.set` target selection (line 1985). -/
def setResolution (index_in_block : Option Int) : TargetPath :=
  match index_in_block with
  | some i => .block i
  | none => .plain

/-- `TMTCPy4j.uplink` target selection (line 2158). -/
def uplinkResolution (index_in_block : Option Int) : TargetPath :=
  match index_in_block with
  | some i => .block i
  | none => .plain

/-- `TMTCPy4j.downlink` target selection (line 2268). -/
def downlinkResolution (index_in_block : Option Int) : TargetPath :=
  match index_in_block with
  | some i => .block i
  | none => .plain

/-- Failure before the collaborator request in `get`. -/
inductive GetErr where
  | valueErrorRange
deriving Repr, DecidableEq

/-- Request formation of `TMTCPy4j.get` (lines 1909-1951): default an
omitted `last_row` to `max_rows - 1` forcing `resize`, reject an inverted
range with a `ValueError`, then issue the single-row `getParameter` overload
when `first_row == last_row` and the ranged overload (carrying `resize`)
otherwise. -/
def getRequest (id : Nat) (pd : ParameterDefinition) (first_row : Int)
    (last_row : Option Int) (resize : Bool) (timeout : Int) :
    Except GetErr EngineCall :=
  let lr : Int := match last_row with
    | none => (pd.max_rows : Int) - 1
    | some l => l
  let rs : Bool := match last_row with
    | none => true
    | some _ => resize
  if first_row > lr then .error .valueErrorRange
  else if first_row = lr then .ok (.getParameterSingle id first_row timeout)
  else .ok (.getParameterMulti id first_row lr rs timeout)

/-- Outcome of `TMTCPy4j.set` as seen by the caller. -/
inductive SetOutcome where
  | ok
  /-- `AttributeError("Cannot set read-only parameter")` (line 1997). -/
  | readOnlyError
  /-- `TypeError("Cannot accept iterable for ... type class")` (line 2007). -/
  | iterableRejected
  | encodeError : EncErr → SetOutcome
deriving Repr

/-- Row-by-row encoding used for the vector classes of `set`
(list comprehension at lines 2023-2025); the first failing row aborts. -/
def encodeRows (db : List DbItem) (pd : ParameterDefinition) (vl : Bool) :
    List PyVal → Except SetOutcome (List PyVal)
  | [] => .ok []
  | r :: rest =>
    match toGen1Type db r pd vl with
    | .error e => .error (.encodeError e)
    | .ok b =>
      match encodeRows db pd vl rest with
      | .error e => .error e
      | .ok bs => .ok (b :: bs)

/-- `TMTCPy4j.set` (lines 1959-2046) after target resolution: read-only
check first, then the type-class dispatch converting the value to byte rows,
then the single `setParameter` collaborator call.  Note `validate_len` is
disabled by the *truthiness* of `index_in_block` (line 2021). -/
def setModel (db : List DbItem) (id : Nat) (pd : ParameterDefinition)
    (value : PyVal) (first_row : Int) (index_in_block : Option Int)
    (resize : Bool) (timeout : Int) : List EngineCall × SetOutcome :=
  if pd.is_read_only then ([], .readOnlyError)
  else
    let dataE : Except SetOutcome (List PyVal) :=
      match pd.type_class with
      | .var_raw =>
        match toGen1Type db value pd false with
        | .ok b => .ok [b]
        | .error e => .error (.encodeError e)
      | .value | .fixed_raw =>
        if pyIsIterable value then .error .iterableRejected
        else
          match toGen1Type db value pd false with
          | .ok b => .ok [b]
          | .error e => .error (.encodeError e)
      | .fixed_vector | .var_vector =>
        let rows := if pyIsIterable value then pyIterRows value else [value]
        let validate_len :=
          match index_in_block with
          | some i => if i != 0 then false else true
          | none => true
        encodeRows db pd validate_len rows
    match dataE with
    | .error o => ([], o)
    | .ok data => ([.setParameter id first_row data resize timeout], .ok)

/-- An action argument description (`Argument` named tuple fields used by
`invoke`). -/
structure ActionArg where
  min_bytes : Nat
  max_bytes : Nat
  is_fixed_size : Bool

/-- The slice of an `ActionInstance` used by `invoke`. -/
structure ActionModel where
  aid : Nat
  args : List ActionArg

/-- Outcome of `TMTCPy4j.invoke` before/at the collaborator call. -/
inductive InvokeOutcome where
  | ok
  /-- `TMTCCommandError("... expects N argument(s)")` (lines 2069-2073). -/
  | arityCommandError
  | encodeError : EncErr → InvokeOutcome
deriving Repr

/-- `TMTCPy4j.invoke` (lines 2048-2117): the arity check compares
`0 if argument is None else 1` against the declared argument count, but the
encode-and-send branch is guarded by `if argument:` — Python truthiness —
so a falsy supplied argument (for example `0`) passes the arity check yet is
invoked through the no-argument `invokeAction` overload.  A truthy argument
is encoded through `_to_gen1_type` with a synthesized `ParameterDefinition`
built from the argument's byte bounds and fixed/variable flag
(lines 2085-2099). -/
def invokeModel (db : List DbItem) (act : ActionModel) (argument : Option PyVal)
    (timeout : Int) : List EngineCall × InvokeOutcome :=
  let provided : Nat := match argument with | none => 0 | some _ => 1
  let required : Nat := act.args.length
  if provided ≠ required then ([], .arityCommandError)
  else
    match argument with
    | some v =>
      if pyTruthyVal v then
        match act.args.head? with
        | some ad =>
          let tc := if ad.is_fixed_size then TypeClass.fixed_raw else TypeClass.var_raw
          let pdef : ParameterDefinition :=
            { signature := "dummy signature".data
              type_str := .raw
              type_class := tc
              min_rows := ad.min_bytes
              max_rows := ad.max_bytes
              bits_per_row := 8 * ad.min_bytes
              bytes_per_row := ad.min_bytes
              storage_bytes_per_row := 1
              unused_bits_per_row := 0
              is_raw := true
              is_fixed_size := ad.is_fixed_size
              is_read_only := false
              is_config := false }
          match toGen1Type db v pdef false with
          | .ok enc => ([.invokeActionArg act.aid enc timeout], .ok)
          | .error e => ([], .encodeError e)
        | none => ([], .arityCommandError)
      else ([.invokeAction act.aid timeout], .ok)
    | none => ([.invokeAction act.aid timeout], .ok)

/-! ## Chunked transfers: `TMTCPy4j.uplink` / `TMTCPy4j.downlink`
(lines 2119-2344)

The environment event says how the blocking wait on the single-slot
completion queue resolves: the transfer listener enqueued a completion code
(`0`/Java `null` means success, nonzero is an onboard exception identifier),
the wait timed out (`queue.Empty`), or — for uplink — the
`uplinkParameter` call itself raised a `Py4JJavaError`. -/

inductive UplinkEvent where
  | completionCode : Nat → UplinkEvent
  | timeoutEmpty : UplinkEvent
  | javaError : UplinkEvent
deriving Repr, DecidableEq

inductive UplinkOutcome where
  | ok
  | readOnlyError
  /-- `TMTCTransferError` wrapping the onboard exception (lines 2208-2213). -/
  | obswTransferError : Nat → UplinkOutcome
  /-- raised by `__handle_command_exception` (line 2216). -/
  | handledCommandError
  /-- `TMTCTransferError("Transfer timed out (transfer aborted)")`. -/
  | timeoutTransferError
deriving Repr, DecidableEq

/-- Exit-state trace of one `uplink` call. -/
structure UplinkTrace where
  calls : List EngineCall
  tempCreated : Bool
  tempRemoved : Bool
  abortCalls : Nat
  result : UplinkOutcome

/-- `TMTCPy4j.uplink` (lines 2119-2225) after target resolution: the
read-only check precedes the staging temp file; the temp file is created,
`uplinkParameter` is issued, and the caller blocks on the completion queue.
`os.remove(tempfile_name)` sits in a `finally`, so the temp file is removed
on every exit path; the timeout path calls `j_transfer.abort()` once before
raising. -/
def uplinkModel (id : Nat) (pd : ParameterDefinition) (dataLen : Nat)
    (first_row : Int) (resize : Bool) (max_retries timeout : Int)
    (ev : UplinkEvent) : UplinkTrace :=
  if pd.is_read_only then ⟨[], false, false, 0, .readOnlyError⟩
  else
    let last_row : Int := first_row + (dataLen / pd.bytes_per_row : Nat) - 1
    let call := EngineCall.uplinkParameter id first_row last_row resize
      max_retries timeout
    match ev with
    | .javaError => ⟨[call], true, true, 0, .handledCommandError⟩
    | .completionCode c =>
      if c = 0 then ⟨[call], true, true, 0, .ok⟩
      else ⟨[call], true, true, 0, .obswTransferError c⟩
    | .timeoutEmpty => ⟨[call], true, true, 1, .timeoutTransferError⟩

inductive DownlinkEvent where
  | completionCode : Nat → DownlinkEvent
  | timeoutEmpty : DownlinkEvent
deriving Repr, DecidableEq

inductive DownlinkOutcome where
  | ok
  | valueErrorRange
  | obswTransferError : Nat → DownlinkOutcome
  | timeoutTransferError
deriving Repr, DecidableEq

/-- Exit-state trace of one `downlink` call.  `stagingLeft` is whether the
destination staging file (created by the collaborator once
`downlinkParameter` is issued) still exists when the call exits. -/
structure DownlinkTrace where
  calls : List EngineCall
  stagingLeft : Bool
  abortCalls : Nat
  result : DownlinkOutcome

/-- `TMTCPy4j.downlink` (lines 2227-2344) after target resolution: default
an omitted `last_row` to `max_rows - 1` forcing `resize`, reject an inverted
range, issue `downlinkParameter`, and block on the completion queue.  On
success the staging file is read and removed; on `queue.Empty` it is removed
and the transfer aborted before the timeout error; on a completion code
carrying an onboard exception the `TMTCTransferError` is raised with **no**
removal — there is no `finally` in `downlink`. -/
def downlinkModel (id : Nat) (pd : ParameterDefinition) (first_row : Int)
    (last_row : Option Int) (resize : Bool) (max_retries timeout : Int)
    (ev : DownlinkEvent) : DownlinkTrace :=
  let lr : Int := match last_row with
    | none => (pd.max_rows : Int) - 1
    | some l => l
  let rs : Bool := match last_row with
    | none => true
    | some _ => resize
  if first_row > lr then ⟨[], false, 0, .valueErrorRange⟩
  else
    let call := EngineCall.downlinkParameter id first_row lr pd.bytes_per_row
      rs timeout max_retries
    match ev with
    | .completionCode c =>
      if c = 0 then ⟨[call], false, 0, .ok⟩
      else ⟨[call], true, 0, .obswTransferError c⟩
    | .timeoutEmpty => ⟨[call], false, 1, .timeoutTransferError⟩

/-! ## Concrete fixtures used by the claim theorems -/

/-- `type(value).__name__` strings. -/
def kindInt : Key := "int".data

def kindBytes : Key := "bytes".data

/-- A deployment view with the two fully-qualified names `a.b.c` (id 1) and
`x.b.c` (id 2), both with short name `c`. -/
def db1 : List DbItem :=
  [⟨"c".data, "a.b.c".data, 1⟩, ⟨"c".data, "x.b.c".data, 2⟩]

/-- A deployment view with `a.b.c` (id 1) and `x.y.c` (id 2): only `a.b.c`
contains the segment `b`. -/
def db2 : List DbItem :=
  [⟨"c".data, "a.b.c".data, 1⟩, ⟨"c".data, "x.y.c".data, 2⟩]

/-- A scalar parameter type description with the given type string,
bits-per-row and bytes-per-row. -/
def mkScalarPD (ts : TypeStr) (bits bytes : Nat) : ParameterDefinition :=
  { signature := []
    type_str := ts
    type_class := .value
    min_rows := 1
    max_rows := 1
    bits_per_row := bits
    bytes_per_row := bytes
    storage_bytes_per_row := bytes
    unused_bits_per_row := 0
    is_raw := false
    is_fixed_size := true
    is_read_only := false
    is_config := false }

/-- A writable variable-vector raw parameter, 1 byte per row, up to 4 rows. -/
def pdV : ParameterDefinition :=
  { signature := []
    type_str := .raw
    type_class := .var_vector
    min_rows := 1
    max_rows := 4
    bits_per_row := 8
    bytes_per_row := 1
    storage_bytes_per_row := 1
    unused_bits_per_row := 0
    is_raw := true
    is_fixed_size := false
    is_read_only := false
    is_config := false }

/-- A read-only unsigned scalar parameter. -/
def pdRO : ParameterDefinition :=
  { signature := []
    type_str := .unsigned
    type_class := .value
    min_rows := 1
    max_rows := 1
    bits_per_row := 8
    bytes_per_row := 1
    storage_bytes_per_row := 1
    unused_bits_per_row := 0
    is_raw := false
    is_fixed_size := true
    is_read_only := true
    is_config := false }

/-- An action taking exactly one fixed-size one-byte argument. -/
def act1 : ActionModel := ⟨3, [⟨1, 1, true⟩]⟩

/-- An action taking no arguments. -/
def act0 : ActionModel := ⟨4, []⟩

/-- Listener behaviours: listener 1 is a full bounded queue, listener 2 a
well-behaved callable. -/
def behFull : Nat → Beh := fun l =>
  if l = 1 then .queueFullB else .callOk (fun r => r)

/-- Listener behaviours: listener 1 is a callable raising a non-`TypeError`
exception, listener 2 a well-behaved callable. -/
def behRaise : Nat → Beh := fun l =>
  if l = 1 then .callRaise false else .callOk (fun r => r)

/-- Listener behaviours: listener 1 unregisters itself from inside its own
notification handler, listener 2 is a plain callable. -/
def behSelfUnreg : Nat → Beh := fun l =>
  if l = 1 then .callOk (fun r => r.filter (fun x => x != 1))
  else .callOk (fun r => r)

/-! ## Helper lemmas -/

/-- Evaluation of the signed branch of `_to_gen1_type` on an integer. -/
theorem toGen1_signed_int_eq (db : List DbItem) (v : Int) (n b : Nat) :
    toGen1Type db (.int v) (mkScalarPD .signed n b) false =
      if -((2 : Int) ^ (n - 1)) ≤ v ∧ v ≤ (2 : Int) ^ (n - 1) - 1 then
        (match toBytesBE v b true with
         | some bs => Except.ok (.bytes bs)
         | none => Except.error .overflowError)
      else .error (.typeErrorConv kindInt .signed .valueErrorRange) := rfl

/-- Evaluation of `int.to_bytes` in signed mode at a positive length. -/
theorem toBytesBE_signed_eq (v : Int) (b' : Nat) :
    toBytesBE v (b' + 1) true =
      if -((2 : Int) ^ (8 * (b' + 1) - 1)) ≤ v ∧ v < (2 : Int) ^ (8 * (b' + 1) - 1) then
        some (beBytes ((v % (2 : Int) ^ (8 * (b' + 1))).toNat) (b' + 1))
      else none := rfl

/-- Delivery in `notify` covers the whole snapshot whenever no listener in
the snapshot raises. -/
theorem notifyGo_delivered (beh : Nat → Beh) (snap : List Nat) :
    ∀ reg acc, (∀ l ∈ snap, (beh l).completes = true) →
      (notifyGo beh snap reg acc).delivered = acc ++ snap := by
  induction snap with
  | nil => intro reg acc _; simp [notifyGo]
  | cons l rest ih =>
    intro reg acc h
    have hl : (beh l).completes = true := h l (by simp)
    have hrest : ∀ x ∈ rest, (beh x).completes = true := by
      intro x hx
      exact h x (by simp [hx])
    cases hb : beh l with
    | callOk post =>
      rw [notifyGo, hb]
      rw [ih (post reg) (acc ++ [l]) hrest]
      simp
    | callRaise b => rw [hb] at hl; simp [Beh.completes] at hl
    | queuePut =>
      rw [notifyGo, hb]
      rw [ih reg (acc ++ [l]) hrest]
      simp
    | queueFullB => rw [hb] at hl; simp [Beh.completes] at hl

/-! ## Claim theorems -/

/-- C1: evaluation of name resolution over the database containing `a.b.c`
(id 1) and `x.b.c` (id 2).  The claim states that resolving the abbreviated
name `c` fails as ambiguous; the code instead resolves `c` silently to the
first-inserted identifier 1, because `_partial_name_to_id` counts only the
immediate children of the node reached (one child, `b`) and
`_lookup_tree_get_id` then descends by always taking the first key.  The
remaining parts of the claim hold: `b.c` is ambiguous when both full names
share `b` and resolves uniquely when only one does, exact full names resolve
unambiguously, and a name reaching no terminal identifier is not found. -/
theorem C1_evaluation :
    nameToId db1 ("c").data = .ok 1
    ∧ nameToId db1 ("b.c").data = .ambiguous
    ∧ nameToId db2 ("b.c").data = .ok 1
    ∧ nameToId db1 ("a.b.c").data = .ok 1
    ∧ nameToId db1 ("x.b.c").data = .ok 2
    ∧ nameToId db1 ("q").data = .notFound :=
  ⟨rfl, rfl, rfl, rfl, rfl, rfl⟩

/-- C2: evaluation of the transfer staging/abort traces.  The claim states
that the staging storage is removed on every exit path of `uplink` and
`downlink`.  `uplink` removes its temp file in a `finally` on all four exit
paths, and the timeout path aborts the transfer exactly once; but
`downlink`'s onboard-exception path (a completion notification carrying a
nonzero exception code) raises `TMTCTransferError` without removing the
staging file, so the claim fails there. -/
theorem C2_evaluation :
    (downlinkModel 7 pdV 0 none false 10 2000 (.completionCode 5)).stagingLeft = true
    ∧ (downlinkModel 7 pdV 0 none false 10 2000 (.completionCode 5)).result =
        .obswTransferError 5
    ∧ (downlinkModel 7 pdV 0 none false 10 2000 (.completionCode 5)).abortCalls = 0
    ∧ (downlinkModel 7 pdV 0 none false 10 2000 .timeoutEmpty).stagingLeft = false
    ∧ (downlinkModel 7 pdV 0 none false 10 2000 .timeoutEmpty).abortCalls = 1
    ∧ (downlinkModel 7 pdV 0 none false 10 2000 (.completionCode 0)).stagingLeft = false
    ∧ (uplinkModel 7 pdV 16 0 false 5 2000 (.completionCode 0)).tempRemoved = true
    ∧ (uplinkModel 7 pdV 16 0 false 5 2000 (.completionCode 5)).tempRemoved = true
    ∧ (uplinkModel 7 pdV 16 0 false 5 2000 .javaError).tempRemoved = true
    ∧ (uplinkModel 7 pdV 16 0 false 5 2000 .timeoutEmpty).tempRemoved = true
    ∧ (uplinkModel 7 pdV 16 0 false 5 2000 .timeoutEmpty).abortCalls = 1 :=
  ⟨rfl, rfl, rfl, rfl, rfl, rfl, rfl, rfl, rfl, rfl, rfl⟩

/-- C3 counterexample: for an 8-bit signed parameter, encoding the
out-of-range value `2^7 = 128` raises exactly the generic type-conversion
`TypeError` (`Cannot convert int to Gen1 signed type`, with the range
`ValueError` as its wrapped cause) — the same exception class and
constructor produced by a genuine type mismatch (second conjunct), so the
range failure is *not* distinct from the type-conversion error. -/
theorem C3_counterexample :
    toGen1Type [] (.int 128) (mkScalarPD .signed 8 1) false =
      .error (.typeErrorConv kindInt .signed .valueErrorRange)
    ∧ toGen1Type [] (.bytes []) (mkScalarPD .unsigned 8 1) false =
      .error (.typeErrorConv kindBytes .unsigned .attributeError)
    ∧ EncErr.isConvError (.typeErrorConv kindInt .signed .valueErrorRange) = true
    ∧ EncErr.isConvError (.typeErrorConv kindBytes .unsigned .attributeError) = true :=
  ⟨rfl, rfl, rfl, rfl⟩

/-- C3 (amended): for every signed parameter type with `n = bits_per_row`
and consistent byte width (`n ≤ 8 * bytes_per_row`), encoding `2^(n-1)` or
`-2^(n-1)-1` always fails — with the generic type-conversion `TypeError`
carrying the range `ValueError` as its wrapped cause, not with a distinct
top-level range error — while encoding `2^(n-1)-1` and `-2^(n-1)` always
succeeds; every out-of-range integer fails the same way, never with silent
truncation. -/
theorem C3_amended (n b : Nat) (h1 : 1 ≤ n) (h2 : n ≤ 8 * b) :
    toGen1Type [] (.int ((2 : Int) ^ (n - 1))) (mkScalarPD .signed n b) false =
      .error (.typeErrorConv kindInt .signed .valueErrorRange)
    ∧ toGen1Type [] (.int (-((2 : Int) ^ (n - 1)) - 1)) (mkScalarPD .signed n b) false =
      .error (.typeErrorConv kindInt .signed .valueErrorRange)
    ∧ (∃ bs, toGen1Type [] (.int ((2 : Int) ^ (n - 1) - 1))
        (mkScalarPD .signed n b) false = .ok (.bytes bs))
    ∧ (∃ bs, toGen1Type [] (.int (-((2 : Int) ^ (n - 1))))
        (mkScalarPD .signed n b) false = .ok (.bytes bs))
    ∧ (∀ v : Int, v < -((2 : Int) ^ (n - 1)) ∨ (2 : Int) ^ (n - 1) - 1 < v →
        toGen1Type [] (.int v) (mkScalarPD .signed n b) false =
          .error (.typeErrorConv kindInt .signed .valueErrorRange)) := by
  obtain ⟨b', rfl⟩ : ∃ b'', b = b'' + 1 := ⟨b - 1, by omega⟩
  have hp : (0 : Int) < 2 ^ (n - 1) := pow_pos (by norm_num) _
  have hq : (0 : Int) < 2 ^ (8 * (b' + 1) - 1) := pow_pos (by norm_num) _
  have hpq : (2 : Int) ^ (n - 1) ≤ 2 ^ (8 * (b' + 1) - 1) :=
    pow_le_pow_right₀ (by norm_num) (by omega)
  refine ⟨?_, ?_, ?_, ?_, ?_⟩
  · rw [toGen1_signed_int_eq, if_neg]
    rintro ⟨-, hc⟩
    omega
  · rw [toGen1_signed_int_eq, if_neg]
    rintro ⟨hc, -⟩
    omega
  · rw [toGen1_signed_int_eq, if_pos (by constructor <;> omega)]
    rw [toBytesBE_signed_eq, if_pos (by constructor <;> omega)]
    exact ⟨_, rfl⟩
  · rw [toGen1_signed_int_eq, if_pos (by constructor <;> omega)]
    rw [toBytesBE_signed_eq, if_pos (by constructor <;> omega)]
    exact ⟨_, rfl⟩
  · intro v hv
    rw [toGen1_signed_int_eq, if_neg]
    rintro ⟨hl, hr⟩
    omega

/-- C3 witness: the amended theorem applied at an 8-bit, 1-byte signed
parameter and the boundary value 128. -/
theorem C3_amended_witness :
    toGen1Type [] (.int ((2 : Int) ^ (8 - 1))) (mkScalarPD .signed 8 1) false =
      .error (.typeErrorConv kindInt .signed .valueErrorRange) :=
  (C3_amended 8 1 (by norm_num) (by norm_num)).1

/-- C4: evaluation of one `notify` dispatch over the snapshot `[1, 2]`.
The claim states that an error from one subscriber (a raising callable or a
full bounded queue) does not prevent delivery to the remaining subscribers.
In the code, `put_nowait` on a full queue raises `queue.Full`, which
propagates out of the dispatch loop, so subscriber 2 is never notified
(delivered list empty); a callable raising a non-`TypeError` likewise stops
the loop after itself.  The registry itself is not corrupted (the snapshot
is a copy) and enqueueing uses `put_nowait`, never a blocking `put`. -/
theorem C4_evaluation :
    (notifyModel [1, 2] behFull).delivered = []
    ∧ (notifyModel [1, 2] behFull).exc = some .queueFull
    ∧ (notifyModel [1, 2] behFull).registry = [1, 2]
    ∧ (notifyModel [1, 2] behRaise).delivered = [1]
    ∧ (notifyModel [1, 2] behRaise).exc = some .otherError
    ∧ (notifyModel [1, 2] behRaise).registry = [1, 2] :=
  ⟨rfl, rfl, rfl, rfl, rfl, rfl⟩

/-- C5: evaluation of `invoke`.  The claim states that whenever the declared
arity is 1 and an argument value is supplied, the argument is encoded and
passed to `invokeAction`.  The arity check compares against
`argument is None`, but the encode branch is guarded by the *truthiness*
`if argument:`, so the supplied falsy argument `0` passes the arity check
and is then silently dropped: the no-argument `invokeAction` overload is
called (first conjunct).  The arity rejection itself works (second and
third conjuncts), and a truthy argument is encoded through the synthesized
raw type description and passed (fourth conjunct). -/
theorem C5_evaluation :
    invokeModel [] act1 (some (.int 0)) 2000 = ([.invokeAction 3 2000], .ok)
    ∧ invokeModel [] act1 none 2000 = ([], .arityCommandError)
    ∧ invokeModel [] act0 (some (.int 1)) 2000 = ([], .arityCommandError)
    ∧ invokeModel [] act1 (some (.int 1)) 2000 =
        ([.invokeActionArg 3 (.bytes [1]) 2000], .ok) :=
  ⟨rfl, rfl, rfl, rfl⟩

/-- C6: a bitfield row with exactly 1 bit-per-row decodes to a boolean
(`0x00` to `false`, any nonzero unsigned value to `true`), while a bitfield
with more than one bit per row and an unsigned row decode to the unsigned
integer with no boolean special-casing. -/
theorem C6_bitfield_boolean (bs : List Nat) (k w bits : Nat) :
    fromGen1Type [] bs (mkScalarPD .bitfield 1 1) = .boolV (beNat bs != 0)
    ∧ fromGen1Type [] [0] (mkScalarPD .bitfield 1 1) = .boolV false
    ∧ fromGen1Type [] [1] (mkScalarPD .bitfield 1 1) = .boolV true
    ∧ fromGen1Type [] bs (mkScalarPD .bitfield (k + 2) w) = .natV (beNat bs)
    ∧ fromGen1Type [] bs (mkScalarPD .unsigned bits w) = .natV (beNat bs) :=
  ⟨rfl, rfl, rfl, rfl, rfl⟩

/-- C7: for every parameter whose type description is read-only, `set` and
`uplink` fail immediately with the read-only error and issue no collaborator
call whatsoever (the calls trace is empty); `uplink` does not even create
its staging temp file. -/
theorem C7_read_only_rejection (db : List DbItem) (id : Nat)
    (pd : ParameterDefinition) (value : PyVal) (first_row : Int)
    (idx : Option Int) (resize : Bool) (timeout : Int)
    (dataLen : Nat) (max_retries : Int) (ev : UplinkEvent)
    (h : pd.is_read_only = true) :
    setModel db id pd value first_row idx resize timeout = ([], .readOnlyError)
    ∧ uplinkModel id pd dataLen first_row resize max_retries timeout ev =
        ⟨[], false, false, 0, .readOnlyError⟩ := by
  constructor
  · rw [setModel.eq_def, if_pos h]
  · rw [uplinkModel.eq_def, if_pos h]

/-- C7 witness: the theorem applied to the concrete read-only parameter
`pdRO`. -/
theorem C7_witness :
    setModel [] 1 pdRO (.int 0) 0 none false 2000 = ([], .readOnlyError) :=
  (C7_read_only_rejection [] 1 pdRO (.int 0) 0 none false 2000 4 5
    .timeoutEmpty rfl).1

/-- C8: for every `get` (and analogously `downlink`) in which `last_row` is
omitted, the effective last row defaults to `max_rows - 1` of the type
description and `resize` is forced true: the ranged `getParameter` overload
carries `resize = true` (the single-row overload is used only in the
degenerate case `first_row = max_rows - 1`, which has no resize flag), and
`downlinkParameter` is always issued with last row `max_rows - 1` and
`resize = true`. -/
theorem C8_default_row_range (id : Nat) (pd : ParameterDefinition)
    (first_row max_retries timeout : Int) (ev : DownlinkEvent)
    (h : first_row ≤ (pd.max_rows : Int) - 1) :
    getRequest id pd first_row none false timeout =
      .ok (if first_row = (pd.max_rows : Int) - 1
           then .getParameterSingle id first_row timeout
           else .getParameterMulti id first_row ((pd.max_rows : Int) - 1) true timeout)
    ∧ (downlinkModel id pd first_row none false max_retries timeout ev).calls =
        [.downlinkParameter id first_row ((pd.max_rows : Int) - 1)
          pd.bytes_per_row true timeout max_retries] := by
  constructor
  · rw [getRequest]
    rw [if_neg (by omega)]
    split <;> rfl
  · rw [downlinkModel]
    rw [if_neg (by omega)]
    cases ev with
    | completionCode c => cases c <;> rfl
    | timeoutEmpty => rfl

/-- C8 witness: the theorem applied to the four-row parameter `pdV` with
`first_row = 0`. -/
theorem C8_witness :
    getRequest 1 pdV 0 none false 2000 =
      .ok (if (0 : Int) = (pdV.max_rows : Int) - 1
           then .getParameterSingle 1 0 2000
           else .getParameterMulti 1 0 ((pdV.max_rows : Int) - 1) true 2000) :=
  (C8_default_row_range 1 pdV 0 10 2000 .timeoutEmpty (by decide)).1

/-- C9: `notify` delivers to the snapshot of the listener registry taken at
dispatch start: as long as no listener in the snapshot raises, every member
of the snapshot is delivered to, whatever registrations or unregistrations
the handlers perform on the registry during delivery.  In particular a
subscriber unregistering itself inside its own handler does not stop the
other subscriber from receiving the in-flight notification. -/
theorem C9_snapshot_delivery (reg : List Nat) (beh : Nat → Beh)
    (h : ∀ l ∈ reg, (beh l).completes = true) :
    (notifyModel reg beh).delivered = reg := by
  have hgo := notifyGo_delivered beh reg reg [] h
  rw [notifyModel, hgo]
  simp

/-- C9 witness: two subscribers, the first unregistering itself during its
own notification; both are delivered to (so in particular subscriber 2
still received the notification). -/
theorem C9_witness : (notifyModel [1, 2] behSelfUnreg).delivered = [1, 2] :=
  C9_snapshot_delivery [1, 2] behSelfUnreg (by decide)

/-- C10: `query` guards its parameter-block path with the *truthiness*
`if index_in_block:`, so `index_in_block = 0` (and `None`) take the plain
`parameter_instance` path, while `get`, `set`, `uplink` and `downlink` test
`index_in_block is not None` and take the parameter-block path for `0`. -/
theorem C10_index_zero_truthiness (i : Int) :
    queryResolution (some 0) = .plain
    ∧ queryResolution none = .plain
    ∧ (i ≠ 0 → queryResolution (some i) = .block i)
    ∧ getResolution (some 0) = .block 0
    ∧ setResolution (some 0) = .block 0
    ∧ uplinkResolution (some 0) = .block 0
    ∧ downlinkResolution (some 0) = .block 0 := by
  refine ⟨rfl, rfl, ?_, rfl, rfl, rfl, rfl⟩
  intro h
  rw [queryResolution]
  rw [if_pos]
  simpa using h

/-- C10 witness: the truthiness branch applied at the nonzero index 3. -/
theorem C10_witness : queryResolution (some 3) = .block 3 :=
  (C10_index_zero_truthiness 3).2.2.1 (by decide)

end TMTC
